import Mathlib

/-!
Shallow embedding of the two log-parsing functions of
`qm_lab3_geometry_optimization.ipynb`: `plot_R` (bond-distance extraction)
and `plot_energy` (energy extraction).

A line of the log file is modelled as a list of characters, without its
terminating newline (none of the operations used — substring search, strip,
whitespace split, field indexing — distinguishes a line from the same line
with a trailing newline, since the search token contains no newline).
An opened file is `Option (List Line)`: `none` models a path at which no
file exists, where Python's `open` raises `FileNotFoundError`.

Python's `float(...)` is modelled as an exact decimal/exponent parser into
`ℚ` (the subset of Python float syntax actually exercised by the log format:
optional sign, digits, optional fractional part, optional exponent).  The
conversion to binary floating point is the same deterministic function on
both sides of every claim, so exact rationals decide the same equalities.
-/

abbrev Line := List Char

inductive PyError
  | fileNotFoundError
  | indexError
  | valueError
deriving DecidableEq

deriving instance DecidableEq for Except

/-- Whitespace characters recognised by Python's `str.split()` with no
argument and by `str.strip()` (the ASCII ones; the log is ASCII). -/
def isPySpace (c : Char) : Bool :=
  c == ' ' || c == '\t' || c == '\n' || c == '\r' || c == '\x0b' || c == '\x0c'

/-- Python `s.startswith(p)`: `leadsWith p s` is true iff the character list
`p` is an initial segment of `s`. -/
def leadsWith : Line → Line → Bool
  | [], _ => true
  | _ :: _, [] => false
  | a :: as, b :: bs => a == b && leadsWith as bs

/-- Python `line.strip()`: remove leading and trailing whitespace. -/
def pyStrip (l : Line) : Line :=
  ((l.dropWhile isPySpace).reverse.dropWhile isPySpace).reverse

/-- Accumulator-based worker for `pySplit`; `acc` holds the current field
reversed. -/
def pySplitAux : Line → Line → List Line
  | [], acc => if acc.isEmpty then [] else [acc.reverse]
  | c :: cs, acc =>
    if isPySpace c then
      if acc.isEmpty then pySplitAux cs [] else acc.reverse :: pySplitAux cs []
    else pySplitAux cs (c :: acc)

/-- Python `line.split()` with no argument: split on runs of whitespace,
never producing empty fields. -/
def pySplit (l : Line) : List Line := pySplitAux l []

/-- Worker for `pyFind`: index of the first position at or after `i` where
`p` occurs. -/
def pyFindAux (p : Line) : Line → Nat → Option Nat
  | [], i => if leadsWith p [] then some i else none
  | c :: rest, i =>
    if leadsWith p (c :: rest) then some i else pyFindAux p rest (i + 1)

/-- Python `l.find(p)`: character index of the first occurrence of `p` in
`l`, or `-1` when `p` does not occur. -/
def pyFind (l p : Line) : Int :=
  match pyFindAux p l 0 with
  | some i => (i : Int)
  | none => -1

/-- Numeric value of a decimal digit character. -/
def digitVal (c : Char) : Nat := c.toNat - 48

/-- Numeric value of a digit string, most significant digit first. -/
def digitsVal (ds : Line) : Nat := ds.foldl (fun a c => a * 10 + digitVal c) 0

/-- Fuel-based decimal rendering of a natural number, used to model
Python's `str(n)`; `fuel = n + 1` always suffices. -/
def natToDigits : Nat → Nat → Line
  | 0, _ => []
  | fuel + 1, n =>
    if n < 10 then [Char.ofNat (48 + n)]
    else natToDigits fuel (n / 10) ++ [Char.ofNat (48 + n % 10)]

/-- Python `str(n)` for a natural number. -/
def decimal (n : Nat) : Line := natToDigits (n + 1) n

/-- The search token built by `plot_R`:
`pair_notation = 'R(' + str(a) + ',' + str(b) + ')'`. -/
def pairToken (a b : Nat) : Line :=
  'R' :: '(' :: decimal a ++ ',' :: decimal b ++ [')']

/-- All-digit string to number; `none` on the empty string or any
non-digit. -/
def pyNatDigits (s : Line) : Option Nat :=
  if s.isEmpty || s.any (fun c => !c.isDigit) then none else some (digitsVal s)

/-- Signed exponent digits of a float literal. -/
def pyExpDigits : Line → Option Int
  | '-' :: rest => (pyNatDigits rest).map (fun n => -(n : Int))
  | '+' :: rest => (pyNatDigits rest).map (fun n => (n : Int))
  | rest => (pyNatDigits rest).map (fun n => (n : Int))

/-- Optional exponent suffix of a float literal; the empty remainder means
exponent `0`, anything not of the form `e…`/`E…` is a parse error. -/
def pyExpPart : Line → Option Int
  | [] => some 0
  | 'e' :: rest => pyExpDigits rest
  | 'E' :: rest => pyExpDigits rest
  | _ => none

/-- Exact rational value of an unsigned decimal mantissa `m` with `sc`
fractional digits, scaled by `10 ^ e`. -/
def ratOfScaled (m sc : Nat) : Int → ℚ
  | Int.ofNat k => Rat.divInt (m * 10 ^ k) (10 ^ sc)
  | Int.negSucc k => Rat.divInt m (10 ^ (sc + k + 1))

/-- Unsigned part of Python `float(...)`: digits, optional single point,
optional exponent; at least one mantissa digit required. -/
def pyFloatMag (s : Line) : Option ℚ :=
  let ip := s.takeWhile Char.isDigit
  let r1 := s.dropWhile Char.isDigit
  match r1 with
  | '.' :: t =>
    let fp := t.takeWhile Char.isDigit
    let r2 := t.dropWhile Char.isDigit
    if ip.isEmpty && fp.isEmpty then none
    else (pyExpPart r2).map (fun e => ratOfScaled (digitsVal (ip ++ fp)) fp.length e)
  | _ =>
    if ip.isEmpty then none
    else (pyExpPart r1).map (fun e => ratOfScaled (digitsVal ip) 0 e)

/-- Python `float(s)` on a whitespace-free field (the only inputs it ever
receives here, since fields come from `split()`): `none` models a
`ValueError`. -/
def pyFloat : Line → Option ℚ
  | '-' :: rest => (pyFloatMag rest).map (fun q => -q)
  | '+' :: rest => pyFloatMag rest
  | s => pyFloatMag s

/-- Float value of field `i` of an already-split row: `row[i]` followed by
`float(...)`, with `none` when either step fails. -/
def fieldFloat (row : List Line) (i : Nat) : Option ℚ :=
  (row.get? i).bind pyFloat

/-- The filter condition of the comprehension in `plot_R`:
`line.find(pair_notation) > 1 and line.strip().split()[1].startswith(pair_notation)`.
The conjunction short-circuits, so the fallible indexing `[1]` is reached
only when the `find` test passes; a missing second field is an
`IndexError`. -/
def matchTest (p l : Line) : Except PyError Bool :=
  if 1 < pyFind l p then
    match (pySplit (pyStrip l)).get? 1 with
    | none => Except.error PyError.indexError
    | some f => Except.ok (leadsWith p f)
  else Except.ok false

/-- The list comprehension of `plot_R`:
`[line.split() for line in f if …]`, with the first exception raised during
filtering propagated. -/
def collectMatches (p : Line) : List Line → Except PyError (List (List Line))
  | [] => Except.ok []
  | l :: ls =>
    match matchTest p l with
    | Except.error e => Except.error e
    | Except.ok true => (collectMatches p ls).map (fun rs => pySplit l :: rs)
    | Except.ok false => collectMatches p ls

/-- The loop of `plot_R`:
`for item in rows_with_R_pairs: bond_distances.append(float(item[6]))`,
failing with `IndexError` on a row shorter than 7 fields and `ValueError`
on a non-numeric field. -/
def appendDistances : List (List Line) → Except PyError (List ℚ)
  | [] => Except.ok []
  | r :: rs =>
    match r.get? 6 with
    | none => Except.error PyError.indexError
    | some s =>
      match pyFloat s with
      | none => Except.error PyError.valueError
      | some v => (appendDistances rs).map (fun vs => v :: vs)

/-- The notebook's `plot_R(a, b)` on the opened optimization log: filter
the lines, then `bond_distances.append(float(rows_with_R_pairs[0][3]))`,
then append `float(item[6])` for every matched row.  `none` for the file
models a missing log (`FileNotFoundError`). -/
def plot_R (a b : Nat) (file : Option (List Line)) : Except PyError (List ℚ) :=
  match file with
  | none => Except.error PyError.fileNotFoundError
  | some lines =>
    match collectMatches (pairToken a b) lines with
    | Except.error e => Except.error e
    | Except.ok rows =>
      match rows.get? 0 with
      | none => Except.error PyError.indexError
      | some r0 =>
        match r0.get? 3 with
        | none => Except.error PyError.indexError
        | some s3 =>
          match pyFloat s3 with
          | none => Except.error PyError.valueError
          | some v0 =>
            match appendDistances rows with
            | Except.error e => Except.error e
            | Except.ok vs => Except.ok (v0 :: vs)

/-- The literal prefix tested by `plot_energy`. -/
def energyToken : Line := "Current energy".toList

/-- The filter condition of `plot_energy`:
`line.strip().startswith('Current energy')`. -/
def energyLine (l : Line) : Bool := leadsWith energyToken (pyStrip l)

/-- The comprehension of `plot_energy`:
`[float(line.split()[3]) for line in f if line.strip().startswith('Current energy')]`. -/
def plotEnergyScan : List Line → Except PyError (List ℚ)
  | [] => Except.ok []
  | l :: ls =>
    if energyLine l then
      match (pySplit l).get? 3 with
      | none => Except.error PyError.indexError
      | some s =>
        match pyFloat s with
        | none => Except.error PyError.valueError
        | some v => (plotEnergyScan ls).map (fun vs => v :: vs)
    else plotEnergyScan ls

/-- The notebook's `plot_energy()` on the opened optimization log. -/
def plot_energy (file : Option (List Line)) : Except PyError (List ℚ) :=
  match file with
  | none => Except.error PyError.fileNotFoundError
  | some lines => plotEnergyScan lines

/-- A line on which `matchTest` returns without raising. -/
def matchSafe (p l : Line) : Bool :=
  match matchTest p l with
  | Except.ok _ => true
  | Except.error _ => false

/-- A line accepted by the filter of `plot_R`. -/
def lineMatches (p l : Line) : Bool :=
  match matchTest p l with
  | Except.ok true => true
  | _ => false

/-- The matched lines of the log, in file order. -/
def matchedLines (a b : Nat) (lines : List Line) : List Line :=
  lines.filter (lineMatches (pairToken a b))

/-- The match criterion as the specification words it: the token occurs
somewhere in the line (at any character position), and the second
whitespace field of the stripped line starts with the token. -/
def specMatch (p l : Line) : Bool :=
  decide (0 ≤ pyFind l p) &&
    (match (pySplit (pyStrip l)).get? 1 with
     | none => false
     | some f => leadsWith p f)

/-! ## Helper lemmas -/

theorem matchTest_error_eq (p l : Line) (e : PyError)
    (h : matchTest p l = Except.error e) : e = PyError.indexError := by
  unfold matchTest at h
  by_cases hf : 1 < pyFind l p
  · rw [if_pos hf] at h
    cases hg : (pySplit (pyStrip l)).get? 1 with
    | none => rw [hg] at h; exact (Except.error.inj h).symm
    | some f => rw [hg] at h; exact Except.noConfusion h
  · rw [if_neg hf] at h; exact Except.noConfusion h

theorem matchTest_false_of_find_le (p l : Line) (h : pyFind l p ≤ 1) :
    matchTest p l = Except.ok false := by
  unfold matchTest
  rw [if_neg (by omega)]

theorem exists_of_matchSafe (p l : Line) (h : matchSafe p l = true) :
    ∃ b, matchTest p l = Except.ok b := by
  unfold matchSafe at h
  cases hm : matchTest p l with
  | ok b => exact ⟨b, rfl⟩
  | error e => rw [hm] at h; exact Bool.noConfusion h

theorem lineMatches_iff (p l : Line) :
    lineMatches p l = true ↔ matchTest p l = Except.ok true := by
  unfold lineMatches
  cases hm : matchTest p l with
  | ok b => cases b <;> simp
  | error e => simp

theorem collectMatches_ok_of_safe (p : Line) (lines : List Line)
    (h : ∀ l ∈ lines, matchSafe p l = true) :
    collectMatches p lines = Except.ok ((lines.filter (lineMatches p)).map pySplit) := by
  induction lines with
  | nil => rfl
  | cons l ls ih =>
    obtain ⟨b, hb⟩ := exists_of_matchSafe p l (h l (List.mem_cons_self l ls))
    have ihh := ih (fun x hx => h x (List.mem_cons_of_mem l hx))
    cases b with
    | true =>
      have hLM : lineMatches p l = true := (lineMatches_iff p l).mpr hb
      simp [collectMatches, hb, ihh, Except.map, List.filter_cons, hLM]
    | false =>
      have hLM : lineMatches p l = false := by simp [lineMatches, hb]
      simp [collectMatches, hb, ihh, List.filter_cons, hLM]

theorem collectMatches_error_of_crash (p : Line) (lines : List Line) (l : Line)
    (hmem : l ∈ lines) (hl : matchTest p l = Except.error PyError.indexError) :
    collectMatches p lines = Except.error PyError.indexError := by
  induction lines with
  | nil => cases hmem
  | cons x xs ih =>
    cases hm : matchTest p x with
    | error e =>
      have he := matchTest_error_eq p x e hm
      subst he
      simp [collectMatches, hm]
    | ok b =>
      have hmem' : l ∈ xs := by
        cases List.mem_cons.mp hmem with
        | inl hEq => subst hEq; rw [hl] at hm; exact Except.noConfusion hm
        | inr h' => exact h'
      have ihh := ih hmem'
      cases b <;> simp [collectMatches, hm, ihh, Except.map]

theorem appendDistances_ok (rs : List (List Line))
    (h : ∀ r ∈ rs, (fieldFloat r 6).isSome = true) :
    appendDistances rs = Except.ok (rs.map (fun r => (fieldFloat r 6).getD 0)) := by
  induction rs with
  | nil => rfl
  | cons r rs ih =>
    have hr := h r (List.mem_cons_self r rs)
    rw [Option.isSome_iff_exists] at hr
    obtain ⟨v, hv⟩ := hr
    have hv' := hv
    unfold fieldFloat at hv'
    obtain ⟨s, hs, hps⟩ := Option.bind_eq_some.mp hv'
    have hs' : r[6]? = some s := by simpa using hs
    have ihh := ih (fun x hx => h x (List.mem_cons_of_mem r hx))
    simp [appendDistances, hs', hps, ihh, Except.map, hv]

theorem plotEnergyScan_ok (lines : List Line)
    (h : ∀ l ∈ lines, energyLine l = true → (fieldFloat (pySplit l) 3).isSome = true) :
    plotEnergyScan lines =
      Except.ok ((lines.filter energyLine).map (fun l => (fieldFloat (pySplit l) 3).getD 0)) := by
  induction lines with
  | nil => rfl
  | cons l ls ih =>
    have ihh := ih (fun x hx => h x (List.mem_cons_of_mem l hx))
    by_cases he : energyLine l = true
    · have hr := h l (List.mem_cons_self l ls) he
      rw [Option.isSome_iff_exists] at hr
      obtain ⟨v, hv⟩ := hr
      have hv' := hv
      unfold fieldFloat at hv'
      obtain ⟨s, hs, hps⟩ := Option.bind_eq_some.mp hv'
      have hs' : (pySplit l)[3]? = some s := by simpa using hs
      simp [plotEnergyScan, he, hs', hps, ihh, Except.map, List.filter_cons, hv]
    · have he' : energyLine l = false := by simpa using he
      simp [plotEnergyScan, he', ihh, List.filter_cons]

theorem plotEnergyScan_short_head (l : Line) (post : List Line)
    (hm : energyLine l = true) (hshort : (pySplit l).length < 4) :
    plotEnergyScan (l :: post) = Except.error PyError.indexError := by
  have hg : (pySplit l)[3]? = none := by
    simpa using List.get?_eq_none.mpr (show (pySplit l).length ≤ 3 by omega)
  simp [plotEnergyScan, hm, hg]

theorem plotEnergyScan_pre (pre rest : List Line)
    (hpre : ∀ x ∈ pre, energyLine x = true → (fieldFloat (pySplit x) 3).isSome = true)
    (hrest : plotEnergyScan rest = Except.error PyError.indexError) :
    plotEnergyScan (pre ++ rest) = Except.error PyError.indexError := by
  induction pre with
  | nil => simpa
  | cons x xs ih =>
    have ihh := ih (fun y hy => hpre y (List.mem_cons_of_mem x hy))
    by_cases he : energyLine x = true
    · have hr := hpre x (List.mem_cons_self x xs) he
      rw [Option.isSome_iff_exists] at hr
      obtain ⟨v, hv⟩ := hr
      have hv' := hv
      unfold fieldFloat at hv'
      obtain ⟨s, hs, hps⟩ := Option.bind_eq_some.mp hv'
      have hs' : (pySplit x)[3]? = some s := by simpa using hs
      simp [plotEnergyScan, he, hs', hps, ihh, Except.map]
    · have he' : energyLine x = false := by simpa using he
      simp [plotEnergyScan, he', ihh]

/-! ## Claim theorems -/

/-- Claim C1: for a log whose lines all pass the filter test without raising,
with at least one matching line, `plot_R` returns the float at field index 3
of the first matching line followed by the float at field index 6 of every
matching line in file order — a sequence of length N + 1 for N matching
lines. -/
theorem plot_R_matched_output (a b : Nat) (lines : List Line)
    (hsafe : ∀ l ∈ lines, matchSafe (pairToken a b) l = true)
    (m0 : Line) (h0 : (matchedLines a b lines).get? 0 = some m0)
    (v0 : ℚ) (h3 : fieldFloat (pySplit m0) 3 = some v0)
    (h6 : ∀ l ∈ matchedLines a b lines, (fieldFloat (pySplit l) 6).isSome = true) :
    plot_R a b (some lines) =
      Except.ok (v0 :: (matchedLines a b lines).map (fun l => (fieldFloat (pySplit l) 6).getD 0))
    ∧ (v0 :: (matchedLines a b lines).map
        (fun l => (fieldFloat (pySplit l) 6).getD 0)).length
        = (matchedLines a b lines).length + 1 := by
  refine ⟨?_, by simp⟩
  unfold matchedLines at h0 h6 ⊢
  have hcm := collectMatches_ok_of_safe (pairToken a b) lines hsafe
  have hrows0 : ((lines.filter (lineMatches (pairToken a b))).map pySplit).get? 0
      = some (pySplit m0) := by
    rw [List.get?_map, h0]; rfl
  have h3' := h3
  unfold fieldFloat at h3'
  obtain ⟨s3, hs3, hps3⟩ := Option.bind_eq_some.mp h3'
  have h6' : ∀ r ∈ (lines.filter (lineMatches (pairToken a b))).map pySplit,
      (fieldFloat r 6).isSome = true := by
    intro r hr
    obtain ⟨x, hx, rfl⟩ := List.mem_map.mp hr
    exact h6 x hx
  have hap := appendDistances_ok _ h6'
  have hrows0' : ((lines.filter (lineMatches (pairToken a b))).map pySplit)[0]?
      = some (pySplit m0) := by simpa using hrows0
  have hs3' : (pySplit m0)[3]? = some s3 := by simpa using hs3
  simp [plot_R, hcm, hrows0', hs3', hps3, hap, List.map_map, Function.comp]

theorem plot_R_matched_output_witness :
    plot_R 1 2 (some ["P R(1,2) Q 1.512 S T 1.518".toList, "P R(1,2) Q R S T 1.498".toList]) =
      Except.ok ((mkRat 1512 1000) ::
        (matchedLines 1 2 ["P R(1,2) Q 1.512 S T 1.518".toList,
          "P R(1,2) Q R S T 1.498".toList]).map
          (fun l => (fieldFloat (pySplit l) 6).getD 0))
    ∧ ((mkRat 1512 1000) ::
        (matchedLines 1 2 ["P R(1,2) Q 1.512 S T 1.518".toList,
          "P R(1,2) Q R S T 1.498".toList]).map
          (fun l => (fieldFloat (pySplit l) 6).getD 0)).length
        = (matchedLines 1 2 ["P R(1,2) Q 1.512 S T 1.518".toList,
            "P R(1,2) Q R S T 1.498".toList]).length + 1 :=
  plot_R_matched_output 1 2
    ["P R(1,2) Q 1.512 S T 1.518".toList, "P R(1,2) Q R S T 1.498".toList]
    (by decide) "P R(1,2) Q 1.512 S T 1.518".toList (by decide)
    (mkRat 1512 1000) (by decide) (by decide)

/-- Claim C2: for any log, `plot_energy` returns one value per line whose
stripped content starts with the text `Current energy`, namely the float at
whitespace field index 3 of that line, in file order; the result has exactly
as many entries as there are matching lines. -/
theorem plot_energy_matched_output (lines : List Line)
    (hwf : ∀ l ∈ lines, energyLine l = true → (fieldFloat (pySplit l) 3).isSome = true) :
    plot_energy (some lines) =
      Except.ok ((lines.filter energyLine).map (fun l => (fieldFloat (pySplit l) 3).getD 0))
    ∧ ((lines.filter energyLine).map (fun l => (fieldFloat (pySplit l) 3).getD 0)).length
        = (lines.filter energyLine).length := by
  exact ⟨plotEnergyScan_ok lines hwf, by simp⟩

theorem plot_energy_matched_output_witness :
    plot_energy (some ["Current energy =   -230.712451".toList,
        "some other text".toList, "Current energy =   -230.713021".toList,
        "Current energy =   -230.713030".toList]) =
      Except.ok ((["Current energy =   -230.712451".toList,
        "some other text".toList, "Current energy =   -230.713021".toList,
        "Current energy =   -230.713030".toList].filter energyLine).map
          (fun l => (fieldFloat (pySplit l) 3).getD 0))
    ∧ ((["Current energy =   -230.712451".toList,
        "some other text".toList, "Current energy =   -230.713021".toList,
        "Current energy =   -230.713030".toList].filter energyLine).map
          (fun l => (fieldFloat (pySplit l) 3).getD 0)).length
        = (["Current energy =   -230.712451".toList,
            "some other text".toList, "Current energy =   -230.713021".toList,
            "Current energy =   -230.713030".toList].filter energyLine).length :=
  plot_energy_matched_output
    ["Current energy =   -230.712451".toList, "some other text".toList,
      "Current energy =   -230.713021".toList, "Current energy =   -230.713030".toList]
    (by decide)

/-- Claim C3 (counterexample): this line satisfies both conditions of the
claimed criterion — the token occurs in the line (at character index 0) and
the second whitespace field of the stripped line starts with the token —
yet the code's filter rejects it, because `find` must return an index
strictly greater than 1. -/
theorem specMatch_not_lineMatches :
    specMatch (pairToken 1 2) "R(1,2) R(1,2) x 1.0 x x 2.0".toList = true ∧
    matchTest (pairToken 1 2) "R(1,2) R(1,2) x 1.0 x x 2.0".toList = Except.ok false :=
  ⟨by decide, by decide⟩

/-- Claim C3 (amended): a line is matched iff the first occurrence of the
token in the line is at character index 2 or greater and the second
whitespace field of the stripped line starts with the token. -/
theorem matchTest_ok_true_iff (p l : Line) :
    matchTest p l = Except.ok true ↔
      (1 < pyFind l p ∧
        ∃ f, (pySplit (pyStrip l)).get? 1 = some f ∧ leadsWith p f = true) := by
  unfold matchTest
  by_cases hf : 1 < pyFind l p
  · rw [if_pos hf]
    cases hg : (pySplit (pyStrip l)).get? 1 with
    | none => simp [hg, hf]
    | some f => simp [hg, hf]
  · rw [if_neg hf]
    simp [hf]

/-- Claim C4 (counterexample): for pair (3, 4), whose token occurs on no
line of this log, `plot_R` raises an IndexError-equivalent instead of
returning the empty sequence. -/
theorem plot_R_absent_pair_not_empty :
    plot_R 3 4 (some ["B R(1,2) C 1.512 D E 1.518".toList]) =
      Except.error PyError.indexError ∧
    plot_R 3 4 (some ["B R(1,2) C 1.512 D E 1.518".toList]) ≠ Except.ok [] :=
  ⟨by decide, by decide⟩

/-- Claim C4 (amended): for every atom pair whose token occurs on no line of
the log, `plot_R` fails with an IndexError-equivalent (OutOfRange) when it
reads the first element of the empty match list; no validation of atom
existence is performed. -/
theorem plot_R_absent_pair (a b : Nat) (lines : List Line)
    (h : ∀ l ∈ lines, pyFind l (pairToken a b) = -1) :
    plot_R a b (some lines) = Except.error PyError.indexError := by
  have hsafe : ∀ l ∈ lines, matchSafe (pairToken a b) l = true := by
    intro l hl
    unfold matchSafe
    rw [matchTest_false_of_find_le _ _ (by rw [h l hl]; decide)]
  have hnone : lines.filter (lineMatches (pairToken a b)) = [] := by
    rw [List.filter_eq_nil]
    intro l hl
    simp [lineMatches, matchTest_false_of_find_le _ _ (show pyFind l (pairToken a b) ≤ 1 by
      rw [h l hl]; decide)]
  have hcm := collectMatches_ok_of_safe _ _ hsafe
  rw [hnone] at hcm
  simp [plot_R, hcm]

theorem plot_R_absent_pair_witness :
    plot_R 7 9 (some ["  R(1,2)  1.512  1.496  1.489  1.518".toList]) =
      Except.error PyError.indexError :=
  plot_R_absent_pair 7 9 ["  R(1,2)  1.512  1.496  1.489  1.518".toList] (by decide)

/-- Claim C5: for a log on which the filter raises no exception and no line
matches, `plot_R` fails with an IndexError-equivalent (OutOfRange) at the
access to the first element of the empty match list. -/
theorem plot_R_no_match_indexError (a b : Nat) (lines : List Line)
    (hsafe : ∀ l ∈ lines, matchSafe (pairToken a b) l = true)
    (hnone : lines.filter (lineMatches (pairToken a b)) = []) :
    plot_R a b (some lines) = Except.error PyError.indexError := by
  have hcm := collectMatches_ok_of_safe _ _ hsafe
  rw [hnone] at hcm
  simp [plot_R, hcm]

theorem plot_R_no_match_indexError_witness :
    plot_R 1 2 (some ["no bond distances in this log".toList]) =
      Except.error PyError.indexError :=
  plot_R_no_match_indexError 1 2 ["no bond distances in this log".toList]
    (by decide) (by decide)

/-- Claim C6: for a log with no line whose stripped content starts with the
text `Current energy`, `plot_energy` returns the empty sequence without
raising. -/
theorem plot_energy_no_match (lines : List Line)
    (h : ∀ l ∈ lines, energyLine l = false) :
    plot_energy (some lines) = Except.ok [] := by
  have hf : lines.filter energyLine = [] := by
    rw [List.filter_eq_nil]
    intro l hl
    simp [h l hl]
  have hs := plotEnergyScan_ok lines (fun l hl he => by rw [h l hl] at he; cases he)
  rw [hf] at hs
  simpa [plot_energy] using hs

theorem plot_energy_no_match_witness :
    plot_energy (some ["Optimization step 3".toList, "  Energies do not appear".toList]) =
      Except.ok [] :=
  plot_energy_no_match ["Optimization step 3".toList, "  Energies do not appear".toList]
    (by decide)

/-- Claim C7: on the two-line log whose first matching line has whitespace
fields with the value 1.510 at indices 3 and 6 and whose second has 1.395
at index 6, `plot_R 1 2` returns exactly the floats 1.510, 1.510, 1.395. -/
theorem plot_R_two_line_scenario :
    plot_R 1 2 (some ["A R(1,2) B 1.510 C D 1.510".toList,
        "A R(1,2) B C D E 1.395".toList]) =
      Except.ok [mkRat 1510 1000, mkRat 1510 1000, mkRat 1395 1000] := by
  decide

/-- Claim C8 (counterexample): this log contains a matching line with fewer
than 4 whitespace fields, yet `plot_energy` fails with a ValueError, not an
IndexError-equivalent, because an earlier matching line's field at index 3
is not numeric and its conversion fails first. -/
theorem plot_energy_short_line_not_always_indexError :
    plot_energy (some ["Current energy = abc".toList, "Current energy =".toList]) =
      Except.error PyError.valueError ∧
    plot_energy (some ["Current energy = abc".toList, "Current energy =".toList]) ≠
      Except.error PyError.indexError :=
  ⟨by decide, by decide⟩

/-- Claim C8 (amended): for a log containing a matching line with fewer than
4 whitespace fields, where every matching line before it has a field at
index 3 that converts to a float, `plot_energy` fails with an
IndexError-equivalent (OutOfRange). -/
theorem plot_energy_short_line_indexError (pre post : List Line) (l : Line)
    (hm : energyLine l = true)
    (hshort : (pySplit l).length < 4)
    (hpre : ∀ x ∈ pre, energyLine x = true → (fieldFloat (pySplit x) 3).isSome = true) :
    plot_energy (some (pre ++ l :: post)) = Except.error PyError.indexError := by
  have h1 := plotEnergyScan_short_head l post hm hshort
  have h2 := plotEnergyScan_pre pre (l :: post) hpre h1
  simpa [plot_energy] using h2

theorem plot_energy_short_line_indexError_witness :
    plot_energy (some (["Current energy =   -230.712451".toList] ++
      "   Current energy   ".toList :: ["Current energy =   -230.713030".toList])) =
      Except.error PyError.indexError :=
  plot_energy_short_line_indexError
    ["Current energy =   -230.712451".toList]
    ["Current energy =   -230.713030".toList]
    "   Current energy   ".toList
    (by decide) (by decide) (by decide)

/-- Claim C9: on a path at which no log file exists, both extractors fail
with a NotFound (file-not-found) error. -/
theorem extractors_fileNotFound (a b : Nat) :
    plot_R a b none = Except.error PyError.fileNotFoundError ∧
    plot_energy none = Except.error PyError.fileNotFoundError :=
  ⟨rfl, rfl⟩

/-- Claim C10: a line in which the pair token first occurs at character
index 2 or greater but which has fewer than two whitespace fields makes the
filter of `plot_R` index a missing second field, so the extractor fails
with an IndexError-equivalent (OutOfRange) during filtering. -/
theorem plot_R_filter_indexError (a b : Nat) (lines : List Line) (l : Line)
    (hmem : l ∈ lines)
    (hfind : 1 < pyFind l (pairToken a b))
    (hshort : (pySplit (pyStrip l)).length < 2) :
    plot_R a b (some lines) = Except.error PyError.indexError := by
  have hmt : matchTest (pairToken a b) l = Except.error PyError.indexError := by
    unfold matchTest
    rw [if_pos hfind, List.get?_eq_none.mpr (show (pySplit (pyStrip l)).length ≤ 1 by omega)]
  have hcm := collectMatches_error_of_crash (pairToken a b) lines l hmem hmt
  simp [plot_R, hcm]

theorem plot_R_filter_indexError_witness :
    plot_R 1 2 (some ["sane line R(1,2) 1.512 x y 1.518".toList, "  xR(1,2)".toList]) =
      Except.error PyError.indexError :=
  plot_R_filter_indexError 1 2
    ["sane line R(1,2) 1.512 x y 1.518".toList, "  xR(1,2)".toList]
    "  xR(1,2)".toList (by decide) (by decide) (by decide)
